import Mathlib

/-!
Verification of the Space-Debris-Risk-Assessment core against its
natural-language specification.

The development shallowly embeds the two core subsystems:

* `src/app/models/tle_parser.py` (`OptimizedTLEParser`): checksum
  verification, TLE scientific-notation decoding, line validation and the
  full field-extraction pipeline of `parse_tle_lines` / `parse_tle_string`.
  Python strings are modelled as `List Char`, Python `float`/`int`
  conversions as partial functions into `ℚ`/`ℤ` (`Option` = the conversion
  raised), and a Python exception escaping a function as `Except Unit`.
  The model is ASCII-faithful: Python's `\d`, `str.isdigit` and `int()`
  additionally accept some non-ASCII Unicode digits, and `float()` accepts
  underscores and `inf`/`nan` spellings; those exotic inputs are outside the
  model and are never needed below.

* `src/app/models/__init__.py` (`HybridOrbitDecayPredictor`,
  `ReentryAnalyzer`) and `src/app/services/__init__.py`
  (`SpaceDebrisService`): the synthetic training-data generator, the
  ensemble decay prediction, the reentry/risk pipeline and the batch
  dispatch loop.  Floating point is modelled over `ℝ` (the fitted sklearn
  regressors and the feature scaler are opaque real-valued functions, which
  is all the claims use), `numpy` randomness is abstracted by quantifying
  over the list of drawn samples, and Python `round(x, n)` is modelled as
  rounding to `n` decimal digits (Python breaks ties to even; no claim
  below depends on tie behaviour).
-/

/-! ## Python string and number primitives -/

/-- Model of `str.strip()` from the left: drop leading whitespace. -/
def stripLeft (l : List Char) : List Char := l.dropWhile Char.isWhitespace

/-- Model of `str.strip()`: drop leading and trailing whitespace. -/
def pyStrip (l : List Char) : List Char :=
  ((stripLeft l).reverse.dropWhile Char.isWhitespace).reverse

/-- Numeric value of a decimal digit character (`'0'` ↦ 0, …, `'9'` ↦ 9). -/
def digitVal (c : Char) : ℕ := c.toNat - 48

/-- Value of a nonempty all-digit string read in base 10. -/
def digitsVal (l : List Char) : ℕ := l.foldl (fun a c => 10 * a + digitVal c) 0

/-- Digit run: nonempty and all characters are ASCII digits. -/
def parseDigits (l : List Char) : Option ℕ :=
  if l ≠ [] ∧ l.all Char.isDigit then some (digitsVal l) else none

/-- Optional sign followed by a nonempty digit run (the body of Python's
`int(...)` after stripping). -/
def parseSignedDigits (l : List Char) : Option ℤ :=
  match l with
  | '+' :: r => (parseDigits r).map (fun (n : ℕ) => (n : ℤ))
  | '-' :: r => (parseDigits r).map (fun (n : ℕ) => -(n : ℤ))
  | r => (parseDigits r).map (fun (n : ℕ) => (n : ℤ))

/-- Model of Python `int(s)`: strip, optional sign, nonempty digits;
`none` models a raised `ValueError`. -/
def pyInt (l : List Char) : Option ℤ := parseSignedDigits (pyStrip l)

/-- Split a string at the first `'.'` (integer part, fractional part). -/
def splitAtDot : List Char → List Char × Option (List Char)
  | [] => ([], none)
  | c :: r =>
    if c = '.' then ([], some r)
    else
      let p := splitAtDot r
      (c :: p.1, p.2)

/-- Split a string at the first `'e'`/`'E'` exponent marker. -/
def splitAtExpMarker : List Char → List Char × Option (List Char)
  | [] => ([], none)
  | c :: r =>
    if c = 'e' ∨ c = 'E' then ([], some r)
    else
      let p := splitAtExpMarker r
      (c :: p.1, p.2)

/-- The unsigned decimal mantissa of a float literal:
`D+`, `D+.D*` or `D*.D+` (Python also accepts `D+.`). -/
def parseDecimalFrac (l : List Char) : Option ℚ :=
  match splitAtDot l with
  | (ip, none) => (parseDigits ip).map (fun (n : ℕ) => (n : ℚ))
  | (ip, some fp) =>
    if (ip ≠ [] ∨ fp ≠ []) ∧ ip.all Char.isDigit ∧ fp.all Char.isDigit then
      some ((digitsVal ip : ℚ) + (digitsVal fp : ℚ) / 10 ^ fp.length)
    else none

/-- Unsigned float literal: mantissa with an optional `e`/`E` exponent. -/
def pyFloatUnsigned (l : List Char) : Option ℚ :=
  match parseDecimalFrac (splitAtExpMarker l).1 with
  | none => none
  | some m =>
    match (splitAtExpMarker l).2 with
    | none => some m
    | some es =>
      match parseSignedDigits es with
      | none => none
      | some e => some (m * (10 : ℚ) ^ e)

/-- Model of Python `float(s)` on decimal literals: strip, optional sign,
mantissa, optional exponent.  `none` models a raised `ValueError`. -/
def pyFloat (l : List Char) : Option ℚ :=
  match pyStrip l with
  | [] => pyFloatUnsigned []
  | c :: r =>
    if c = '+' then pyFloatUnsigned r
    else if c = '-' then (pyFloatUnsigned r).map (fun q => -q)
    else pyFloatUnsigned (c :: r)

/-! ## `OptimizedTLEParser._parse_scientific_notation`

Python source (tle_parser.py, lines 431-473): strip; return `0.0` for the
empty string and the two literal zero encodings; take an optional mantissa
sign; locate the first `'+'`/`'-'` in the remainder; with no exponent sign
fall back to `float`; otherwise convert the mantissa by inserting a decimal
point after its FIRST digit, parse the exponent, and return
`sign * mantissa * 10 ** exponent`. -/

/-- Split at the first `'+'`/`'-'`: `(prefix, sign char, suffix)`. -/
def splitAtSignChar : List Char → Option (List Char × Char × List Char)
  | [] => none
  | c :: r =>
    if c = '+' ∨ c = '-' then some ([], c, r)
    else (splitAtSignChar r).map (fun p => (c :: p.1, p.2.1, p.2.2))

/-- Model of `_parse_scientific_notation` (the TLE drag-term /
second-derivative field decoder).  `none` models a raised exception. -/
def parse_sci_field (s0 : List Char) : Option ℚ :=
  let s := pyStrip s0
  if s = [] ∨ s = "00000+0".toList ∨ s = "00000-0".toList then some 0
  else
    let sp : ℚ × List Char :=
      match s with
      | '-' :: r => (-1, r)
      | '+' :: r => (1, r)
      | r => (1, r)
    match splitAtSignChar sp.2 with
    | none => (pyFloat sp.2).map (fun m => sp.1 * m)
    | some (mant, sc, ev) =>
      let m? : Option ℚ :=
        match mant with
        | c :: c2 :: rest => pyFloat (c :: '.' :: c2 :: rest)
        | _ => pyFloat mant
      match m? with
      | none => none
      | some m =>
        match pyInt ev with
        | none => none
        | some e =>
          let esigned : ℤ := if sc = '-' then -e else e
          some (sp.1 * m * (10 : ℚ) ^ esigned)

/-! ## Checksums and line validation -/

/-- Per-character checksum contribution (tle_parser.py lines 415-423):
a digit contributes its value, `'-'` contributes 1, all else 0. -/
def tle_char_value (c : Char) : ℕ :=
  if c.isDigit then digitVal c else if c = '-' then 1 else 0

/-- Model of `_calculate_checksum`: mod-10 sum over `line[:-1]`. -/
def calculate_checksum (l : List Char) : ℕ :=
  ((l.dropLast).map tle_char_value).sum % 10

/-- Model of `_verify_checksum`.  `int(line[-1])` raises when the final
character is not a digit (or the line is empty): that is the `.error`
case, an exception escaping the function. -/
def verify_checksum (l : List Char) : Except Unit Bool :=
  match l.getLast? with
  | none => .error ()
  | some c =>
    if c.isDigit then .ok (decide (calculate_checksum l = digitVal c))
    else .error ()

/-- Model of `_validate_tle_format`: length 69, prefixes `'1'`/`'2'`,
then both checksums, with Python's short-circuit `or`. -/
def validate_tle_format (l1 l2 : List Char) : Except Unit Bool :=
  if l1.length ≠ 69 ∨ l2.length ≠ 69 then .ok false
  else if l1.headD ' ' ≠ '1' ∨ l2.headD ' ' ≠ '2' then .ok false
  else
    match verify_checksum l1 with
    | .error e => .error e
    | .ok false => .ok false
    | .ok true =>
      match verify_checksum l2 with
      | .error e => .error e
      | .ok b2 => .ok b2

/-! ## Field extraction (`parse_tle_lines`)

`line1_pattern` and `line2_pattern` are regexes of fixed-width groups
joined by one-or-more-space separators, anchored at both ends.  Their
minimum match lengths are exactly 69, and `parse_tle_lines` only applies
them after `_validate_tle_format` has established `len(line) == 69`, so
every separator is forced to exactly one space and each group sits at a
fixed offset.  The models below check the forced layout directly. -/

/-- `line[i]` with an irrelevant default (call sites guarantee length 69). -/
def ch (l : List Char) (i : ℕ) : Char := l.getD i ' '

/-- The fixed-width slice `line[i : i+n]`. -/
def fieldSlice (l : List Char) (i n : ℕ) : List Char := (l.drop i).take n

/-- Layout forced by `line1_pattern` on a 69-character line:
`1 (\d{5})([A-Z]) (.{8}) +(.{14}) +(.{10}) +(.{8}) +(.{8}) +(\d) +(.{4})(\d)`. -/
def line1_matches (l : List Char) : Bool :=
  ch l 0 == '1' && ch l 1 == ' ' && (fieldSlice l 2 5).all Char.isDigit &&
  decide ('A' ≤ ch l 7 ∧ ch l 7 ≤ 'Z') && ch l 8 == ' ' && ch l 17 == ' ' &&
  ch l 32 == ' ' && ch l 43 == ' ' && ch l 52 == ' ' && ch l 61 == ' ' &&
  (ch l 62).isDigit && ch l 63 == ' ' && (ch l 68).isDigit

/-- Layout forced by `line2_pattern` on a 69-character line:
`2 (\d{5}) +(.{8}) +(.{8}) +(.{7}) +(.{8}) +(.{8}) +(.{11})(.{5})(\d)`. -/
def line2_matches (l : List Char) : Bool :=
  ch l 0 == '2' && ch l 1 == ' ' && (fieldSlice l 2 5).all Char.isDigit &&
  ch l 7 == ' ' && ch l 16 == ' ' && ch l 25 == ' ' && ch l 33 == ' ' &&
  ch l 42 == ' ' && ch l 51 == ' ' && (ch l 68).isDigit

/-- Proleptic-Gregorian day number of 1 January of year `y` (days since
0001-01-01), used to model `datetime` arithmetic. -/
def civilJan1 (y : ℤ) : ℤ :=
  365 * (y - 1) + (y - 1) / 4 - (y - 1) / 100 + (y - 1) / 400

/-- Python `round(x, 2)` over `ℚ` (ties: see header note). -/
def qRound2 (x : ℚ) : ℚ := ((round (x * 100) : ℤ) : ℚ) / 100

/-- The structured result of a successful `parse_tle_lines` call (the
fields of the returned dict that are produced by exact rational
arithmetic; the float-valued `computed_parameters` entry is modelled
separately over `ℝ` by `calculate_orbital_parameters`). -/
structure ParsedTLE where
  name : List Char
  catalog_number : ℤ
  classification : Char
  intl_designator : List Char
  epoch_year : ℤ
  epoch_day : ℚ
  epoch_days : ℚ
  age_days : ℚ
  mm_derivative : ℚ
  mm_second_derivative : ℚ
  drag_term : ℚ
  ephemeris_type : ℕ
  element_number : ℤ
  inclination : ℚ
  raan : ℚ
  eccentricity : ℚ
  arg_perigee : ℚ
  mean_anomaly : ℚ
  mean_motion : ℚ
  revolution_number : ℤ
  checksum_line1 : ℕ
  checksum_line2 : ℕ
  line1 : List Char
  line2 : List Char
  deriving DecidableEq, Repr

/-- The body of `parse_tle_lines` (tle_parser.py lines 246-343): the
`try:` block.  Every Python exception raised inside it is caught and
turned into `None`, so the model returns `Option`; the conversions appear
in source order.  The `datetime(year,1,1) + timedelta(days=epoch_day-1)`
step raises on out-of-range dates (`datetime` covers years 1-9999); the
`_calculate_orbital_parameters` call raises `ZeroDivisionError` exactly
when the mean motion is zero. -/
def parse_tle_body (now : ℚ) (nm l1 l2 : List Char) : Option ParsedTLE :=
  if ¬ line1_matches l1 then none
  else
  (pyInt (fieldSlice l1 2 5)).bind fun catalog =>
  let es := pyStrip (fieldSlice l1 18 14)
  (pyInt (es.take 2)).bind fun ey =>
  (pyFloat (es.drop 2)).bind fun ed =>
  let year : ℤ := if ey < 57 then ey + 2000 else ey + 1900
  let edays : ℚ := (civilJan1 year : ℚ) + (ed - 1)
  if ¬ (0 ≤ edays ∧ edays < (civilJan1 10000 : ℚ)) then none
  else
  (pyFloat (pyStrip (fieldSlice l1 33 10))).bind fun mmDeriv =>
  (parse_sci_field (pyStrip (fieldSlice l1 44 8))).bind fun mm2nd =>
  (parse_sci_field (pyStrip (fieldSlice l1 53 8))).bind fun drag =>
  (pyInt (pyStrip (fieldSlice l1 64 4))).bind fun elem =>
  if ¬ line2_matches l2 then none
  else
  (pyFloat (pyStrip (fieldSlice l2 8 8))).bind fun incl =>
  (pyFloat (pyStrip (fieldSlice l2 17 8))).bind fun raan =>
  (pyFloat ('0' :: '.' :: pyStrip (fieldSlice l2 26 7))).bind fun ecc =>
  (pyFloat (pyStrip (fieldSlice l2 34 8))).bind fun argp =>
  (pyFloat (pyStrip (fieldSlice l2 43 8))).bind fun ma =>
  (pyFloat (pyStrip (fieldSlice l2 52 11))).bind fun mm =>
  (pyInt (pyStrip (fieldSlice l2 63 5))).bind fun rev =>
  if mm = 0 then none
  else
  some
    { name := pyStrip nm
      catalog_number := catalog
      classification := ch l1 7
      intl_designator := pyStrip (fieldSlice l1 9 8)
      epoch_year := year
      epoch_day := ed
      epoch_days := edays
      age_days := qRound2 (now - edays)
      mm_derivative := mmDeriv
      mm_second_derivative := mm2nd
      drag_term := drag
      ephemeris_type := digitVal (ch l1 62)
      element_number := elem
      inclination := incl
      raan := raan
      eccentricity := ecc
      arg_perigee := argp
      mean_anomaly := ma
      mean_motion := mm
      revolution_number := rev
      checksum_line1 := calculate_checksum l1
      checksum_line2 := calculate_checksum l2
      line1 := l1
      line2 := l2 }

/-- Model of `parse_tle_lines` (tle_parser.py lines 230-343).
`_validate_tle_format` runs BEFORE the `try:` block, so an exception it
raises (the `.error` case of `verify_checksum`) escapes the function. -/
def parse_tle_lines (now : ℚ) (nm l1 l2 : List Char) :
    Except Unit (Option ParsedTLE) :=
  match validate_tle_format l1 l2 with
  | .error e => .error e
  | .ok false => .ok none
  | .ok true => .ok (parse_tle_body now nm l1 l2)

/-- Model of `str.split` on a single newline character. -/
def splitOnNL : List Char → List (List Char)
  | [] => [[]]
  | c :: r =>
    if c = '\n' then [] :: splitOnNL r
    else
      match splitOnNL r with
      | [] => [[c]]
      | h :: t => (c :: h) :: t

/-- Model of `parse_tle_string` (tle_parser.py lines 209-228). -/
def parse_tle_string (now : ℚ) (s : List Char) :
    Except Unit (Option ParsedTLE) :=
  let lines := splitOnNL (pyStrip s)
  if lines.length < 3 then .ok none
  else
    parse_tle_lines now (pyStrip (lines.getD 0 []))
      (pyStrip (lines.getD 1 [])) (pyStrip (lines.getD 2 []))

/-! ## Python `round` over the reals -/

/-- Python `round(x, n)` over `ℝ`: round to `n` decimal digits (ties: see
header note). -/
noncomputable def pyRound (n : ℕ) (x : ℝ) : ℝ :=
  ((round (x * 10 ^ n) : ℤ) : ℝ) / 10 ^ n

/-! ## `_calculate_orbital_parameters` (tle_parser.py lines 475-502) -/

/-- The semi-major axis `a = (mu / n^2) ** (1/3)` computed from the mean
motion (rev/day), with `n = mean_motion * 2 * pi / 86400` rad/s.  The
enclosing call raises `ZeroDivisionError` when `n == 0`; callers
therefore only use this with a nonzero mean motion. -/
noncomputable def tle_semi_major_axis (mean_motion : ℝ) : ℝ :=
  let mu : ℝ := 398600.4418
  let n : ℝ := mean_motion * 2 * Real.pi / 86400
  (mu / n ^ 2) ^ ((1 : ℝ) / 3)

/-- The `computed_parameters` sub-dict of a parsed TLE. -/
structure OrbitalParams where
  semi_major_axis_km : ℝ
  apogee_altitude_km : ℝ
  perigee_altitude_km : ℝ
  orbital_period_minutes : ℝ
  average_altitude_km : ℝ

/-- Model of `_calculate_orbital_parameters`.  The `inclination` argument
is accepted and ignored exactly as in the source. -/
noncomputable def calculate_orbital_parameters
    (mean_motion eccentricity inclination : ℝ) : OrbitalParams :=
  let mu : ℝ := 398600.4418
  let a := tle_semi_major_axis mean_motion
  let earth_radius : ℝ := 6371.0
  let apogee := a * (1 + eccentricity) - earth_radius
  let perigee := a * (1 - eccentricity) - earth_radius
  let period_seconds := 2 * Real.pi * Real.sqrt (a ^ 3 / mu)
  { semi_major_axis_km := pyRound 2 a
    apogee_altitude_km := pyRound 2 apogee
    perigee_altitude_km := pyRound 2 perigee
    orbital_period_minutes := pyRound 2 (period_seconds / 60)
    average_altitude_km := pyRound 2 ((apogee + perigee) / 2) }

/-! ## `HybridOrbitDecayPredictor._generate_training_data`
(models/__init__.py lines 195-252)

The `np.random` draws are abstracted by quantifying over the list of
drawn parameter tuples; the generator maps each draw to its feature
vector and its physics-based decay-rate target. -/

/-- One sampled parameter tuple of the synthetic generator. -/
structure TrainingDraw where
  altitude : ℝ
  inclination : ℝ
  eccentricity : ℝ
  mass : ℝ
  area : ℝ
  solar_flux : ℝ

/-- The simplified atmospheric density: three exponential altitude bands,
then the solar-activity scaling `(solar_flux / 150) ** 0.5`. -/
noncomputable def atmospheric_density (altitude solar_flux : ℝ) : ℝ :=
  let base :=
    if altitude < 300 then 1e-11 * Real.exp (-(altitude - 200) / 50)
    else if altitude < 600 then 1e-12 * Real.exp (-(altitude - 300) / 100)
    else 1e-15 * Real.exp (-(altitude - 600) / 200)
  base * (solar_flux / 150) ^ ((0.5 : ℝ))

/-- The decay-rate target of one training sample, step by step as in the
source (`cd = 2.2`, ballistic coefficient, altitude scaling, eccentricity
effect, inclination effect, floor at `0.001`). -/
noncomputable def training_decay_rate (earth_radius : ℝ) (s : TrainingDraw) : ℝ :=
  let density := atmospheric_density s.altitude s.solar_flux
  let cd : ℝ := 2.2
  let ballistic_coeff := s.mass / (cd * s.area)
  let d0 := (density * s.area * cd * 86400) / (2 * ballistic_coeff)
  let d1 := d0 * (s.altitude / earth_radius) ^ 2
  let d2 := d1 * (1 + s.eccentricity)
  let inclination_factor := 1 + 0.1 * Real.sin (s.inclination * Real.pi / 180)
  let d3 := d2 * inclination_factor
  max 0.001 d3

/-- Model of `_generate_training_data`: the feature matrix and the target
vector, one row per draw. -/
noncomputable def generate_training_data (earth_radius : ℝ)
    (draws : List TrainingDraw) : List (List ℝ) × List ℝ :=
  (draws.map (fun s =>
      [s.altitude, s.inclination, s.eccentricity, s.mass, s.area, s.solar_flux]),
   draws.map (fun s => training_decay_rate earth_radius s))

/-- Modelled from the spec's wording of claim C4 as one closed formula:
`decay = (density * area * 2.2 * 86400) / (2 * (mass/(2.2*area)))`,
multiplied by `(altitude/earth_radius)^2`, by `(1+eccentricity)` and by
`1 + 0.1*sin(inclination_rad)`, floored at `0.001` (the three-band density
with its `(solar_flux/150)^0.5` scaling is the band model of §4.2). -/
noncomputable def spec_decay_target (earth_radius : ℝ) (s : TrainingDraw) : ℝ :=
  max 0.001
    (atmospheric_density s.altitude s.solar_flux * s.area * 2.2 * 86400 /
        (2 * (s.mass / (2.2 * s.area))) *
      (s.altitude / earth_radius) ^ 2 * (1 + s.eccentricity) *
      (1 + 0.1 * Real.sin (s.inclination * Real.pi / 180)))

/-! ## `HybridOrbitDecayPredictor.predict_decay_rate`
(models/__init__.py lines 308-339)

The three fitted sklearn regressors and the fitted `StandardScaler` are
opaque real-valued functions; `predict_decay_rate` builds the feature
vector, scales it, queries the three models and blends. -/

/-- The six-feature input of the decay predictor. -/
structure DecayFeatures where
  altitude : ℝ
  inclination : ℝ
  eccentricity : ℝ
  mass : ℝ
  area : ℝ
  solar_flux : ℝ

/-- Model of `predict_decay_rate`: weighted blend `0.4/0.4/0.2` of the
three regressor outputs on the scaled features, floored at `0.001`. -/
noncomputable def predict_decay_rate
    (rf_model gb_model nn_model : DecayFeatures → ℝ)
    (scaler : DecayFeatures → DecayFeatures) (f : DecayFeatures) : ℝ :=
  let fs := scaler f
  max 0.001 (rf_model fs * 0.4 + gb_model fs * 0.4 + nn_model fs * 0.2)

/-! ## `HybridOrbitDecayPredictor.train` (models/__init__.py lines 254-306) -/

/-- The mutable state of a `HybridOrbitDecayPredictor`: the three models,
the scaler, the trained flag and the recorded metrics (their concrete
representations are opaque type parameters). -/
structure PredictorState (Model Scaler Metrics : Type) where
  rf_model : Model
  gb_model : Model
  nn_model : Model
  scaler : Scaler
  is_trained : Bool
  model_metrics : Metrics

/-- Model of `train`: an early return of the cached metrics when already
trained, otherwise one fitting run (`fit` abstracts data generation,
scaling, splitting and the three `model.fit`/metric computations) after
which the flag is set.  `n_samples = none` models the `None` default that
falls back to the configured sample count. -/
def train {Model Scaler Metrics : Type}
    (fit : ℕ → (Model × Model × Model) × Scaler × Metrics)
    (default_samples : ℕ) (s : PredictorState Model Scaler Metrics)
    (n_samples : Option ℕ) : PredictorState Model Scaler Metrics × Metrics :=
  if s.is_trained then (s, s.model_metrics)
  else
    let n := n_samples.getD default_samples
    let r := fit n
    ({ rf_model := r.1.1, gb_model := r.1.2.1, nn_model := r.1.2.2,
       scaler := r.2.1, is_trained := true, model_metrics := r.2.2 }, r.2.2)

/-! ## `ReentryAnalyzer` (models/__init__.py lines 358-508)

`predict_reentry_window` extracts altitude/inclination/eccentricity from
the external SGP4 parse (`twoline2rv`), predicts the decay rate, derives
the reentry window and computes the risk scores.  The SGP4 extraction is
external to the repository, so the model takes the extracted elements as
inputs; the surrounding `try/except` (which returns `None` on any
exception, e.g. an SGP4 parse failure or a `timedelta` overflow) is the
success condition of a call, and the model describes the successful
result. -/

/-- Model of `_calculate_reentry_risk` (lines 457-477).  The
`inclination` argument is accepted and ignored exactly as in the
source. -/
noncomputable def calculate_reentry_risk
    (days_to_reentry altitude inclination eccentricity : ℝ) : ℝ :=
  let time_risk : ℝ :=
    if days_to_reentry < 30 then 0.9
    else if days_to_reentry < 365 then 0.6
    else if days_to_reentry < 365 * 5 then 0.3
    else 0.1
  let altitude_risk := max 0 (min 1 ((1000 - altitude) / 800))
  let ecc_risk := min 1 (eccentricity * 2)
  min 1.0 (time_risk * 0.5 + altitude_risk * 0.3 + ecc_risk * 0.2)

/-- Model of `_calculate_spatial_risk` (lines 479-494). -/
noncomputable def calculate_spatial_risk
    (inclination altitude days_to_reentry : ℝ) : ℝ :=
  let inclination_factor := min 1 (inclination / 90)
  let altitude_factor := max 0 (min 1 ((800 - altitude) / 600))
  let time_factor : ℝ := if days_to_reentry < 30 then 1.0 else 0.5
  min 1.0 (inclination_factor * 0.4 + altitude_factor * 0.4 + time_factor * 0.2)

/-- Model of `_calculate_uncertainty` (lines 496-508). -/
noncomputable def calculate_uncertainty
    (days_to_reentry altitude decay_rate : ℝ) : ℝ :=
  let base := max 1 (days_to_reentry * 0.1)
  let base := if altitude < 300 ∨ 1500 < altitude then base * 1.5 else base
  let base := if decay_rate < 0.01 then base * 2.0 else base
  min (days_to_reentry * 0.5) base

/-- The dict returned by a successful `predict_reentry_window` call
(dates are modelled as real timestamps in days; `none` = Python `None`). -/
structure ReentryAssessment where
  predicted_date : Option ℝ
  days_from_now : ℝ
  uncertainty_days : ℝ
  overall_reentry_risk : ℝ
  peak_spatial_risk : ℝ
  risk_bound_lower : ℝ
  risk_bound_upper : ℝ
  current_altitude_km : ℝ
  inclination_deg : ℝ
  eccentricity : ℝ
  predicted_decay_rate : ℝ

/-- Model of `predict_reentry_window` (lines 378-455) after the SGP4
element extraction: decay prediction (with the source's default
`mass=1000, area=10, solar_flux=150`), the reentry-timing branch on
`decay_rate > 0`, and the assembled assessment. -/
noncomputable def predict_reentry_window
    (rf_model gb_model nn_model : DecayFeatures → ℝ)
    (scaler : DecayFeatures → DecayFeatures)
    (now altitude inclination eccentricity : ℝ) : ReentryAssessment :=
  let decay_rate := predict_decay_rate rf_model gb_model nn_model scaler
    { altitude := altitude, inclination := inclination,
      eccentricity := eccentricity, mass := 1000, area := 10, solar_flux := 150 }
  let days_to_reentry : ℝ :=
    if 0 < decay_rate then max ((altitude - 100) / decay_rate) 0 else 365 * 100
  let reentry_date : Option ℝ :=
    if 0 < decay_rate then
      (if 0 < days_to_reentry then some (now + days_to_reentry) else some now)
    else none
  let reentry_risk :=
    calculate_reentry_risk days_to_reentry altitude inclination eccentricity
  let spatial_risk := calculate_spatial_risk inclination altitude days_to_reentry
  let uncertainty := calculate_uncertainty days_to_reentry altitude decay_rate
  { predicted_date := reentry_date
    days_from_now := pyRound 1 days_to_reentry
    uncertainty_days := pyRound 1 uncertainty
    overall_reentry_risk := pyRound 3 reentry_risk
    peak_spatial_risk := pyRound 3 spatial_risk
    risk_bound_lower := pyRound 3 (max 0 (reentry_risk - 0.1))
    risk_bound_upper := pyRound 3 (min 1 (reentry_risk + 0.1))
    current_altitude_km := pyRound 1 altitude
    inclination_deg := pyRound 1 inclination
    eccentricity := pyRound 4 eccentricity
    predicted_decay_rate := pyRound 4 decay_rate }

/-! ## `SpaceDebrisService.process_multiple_satellites`
(services/__init__.py lines 207-366) -/

/-- `True` when the Except is a success, as tested by
`if "error" in result` on the returned dict. -/
def isOkE {ε α : Type} : Except ε α → Bool
  | .ok _ => true
  | .error _ => false

/-- The dispatch test of the batch loop:
`isinstance(sat, str) and len(sat.split(chr(10))) >= 3`. -/
def has_three_lines (s : List Char) : Bool := 3 ≤ (splitOnNL s).length

/-- Model of `process_single_satellite` (lines 112-205) up to its parse
stage: the parse failure (and any escaping parser exception, which the
method's own `try/except` converts to an error dict) yields the error
result; the downstream reentry-analysis stage is modelled as succeeding
on every parsed record, which is all the batch-level claims use. -/
def process_single_satellite (now : ℚ) (tle_data : List Char) :
    Except String ParsedTLE :=
  match parse_tle_string now tle_data with
  | .ok (some rec) => .ok rec
  | _ => .error "Invalid TLE data format"

/-- The result-collection loop of `process_multiple_satellites` (lines
307-332): successes are appended to `results`, failures to `errors`
together with the submission index.  (The group-result branch does not
apply to single-satellite handlers, and the final risk-sort and
aggregation are length-preserving and not modelled.) -/
def batch_loop {β : Type} (handler : List Char → Except String β) :
    ℕ → List (List Char) → List β × List (ℕ × String)
  | _, [] => ([], [])
  | i, x :: r =>
    match handler x with
    | .ok v =>
      let p := batch_loop handler (i + 1) r
      (v :: p.1, p.2)
    | .error e =>
      let p := batch_loop handler (i + 1) r
      (p.1, (i, e) :: p.2)

/-- Model of `process_multiple_satellites` on a list of string inputs:
when EVERY input has at least three newline-separated lines the whole
batch is submitted to `process_single_satellite`, otherwise the whole
batch is submitted to `_fetch_and_process` (network fetch by
identifier). -/
def process_multiple_satellites {β : Type}
    (single fetch_and_process : List Char → Except String β)
    (xs : List (List Char)) : List β × List (ℕ × String) :=
  let handler := if xs.all has_three_lines then single else fetch_and_process
  batch_loop handler 0 xs

/-! ## Concrete inputs used by witnesses and counterexamples

`tle_line1`/`tle_line2` form a well-formed 69-character TLE pair (layout
per the fixed offsets above, checksums 8 and 1).  `tle_line2_expfield` is
the same line 2 with the 7-character eccentricity field replaced by
`99e5   ` (checksum updated to 3): every field still converts —
`float("0.99e5")` is a valid Python float literal — so the pair parses
successfully with eccentricity 99000. -/

def tle_line1 : String :=
  "1 00001U 58001A   25001.50000000  .00000000  00000-0  00000-0 0  9998"

def tle_line2 : String :=
  "2 00001  51.6000  247.463 0001000  130.536  325.028 15.72125391 15631"

def tle_line2_expfield : String :=
  "2 00001  51.6000  247.463 99e5     130.536  325.028 15.72125391 15633"

/-- A reference `utcnow`, in days since 0001-01-01: noon of the epoch day
of `tle_line1`. -/
def tle_now : ℚ := (civilJan1 2025 : ℚ) + 1 / 2

/-- A complete valid 3-line TLE string. -/
def tle_good_string : String := "ISS" ++ "\n" ++ tle_line1 ++ "\n" ++ tle_line2

/-- A malformed TLE string that still has three lines. -/
def tle_bad_string : String := "X" ++ "\n" ++ "BAD" ++ "\n" ++ "BAD"

/-- The `_fetch_and_process` outcome when the external fetch yields no
data (`fetch_tle_data` returns the empty list, e.g. no network or an
unknown group): the error dict `Could not fetch TLE data ...`. -/
def failed_fetch {β : Type} : List Char → Except String β :=
  fun _ => .error "Could not fetch TLE data"

/-! ## Helper lemmas -/

theorem ite_none_eq_some {α : Type} {P : Prop} [Decidable P] {x : Option α}
    {v : α} : (if P then none else x) = some v ↔ ¬ P ∧ x = some v := by
  split <;> simp_all

theorem round_le_of_le {x y : ℝ} (h : x ≤ y) : round x ≤ round y := by
  rw [round_eq, round_eq]
  exact Int.floor_mono (by linarith)

theorem pyRound_mono (n : ℕ) {x y : ℝ} (h : x ≤ y) : pyRound n x ≤ pyRound n y := by
  unfold pyRound
  have hc : (0 : ℝ) < 10 ^ n := by positivity
  gcongr
  exact_mod_cast round_le_of_le (by nlinarith)

theorem pyRound_zero (n : ℕ) : pyRound n 0 = 0 := by
  simp [pyRound]

theorem pyRound_one (n : ℕ) : pyRound n 1 = 1 := by
  unfold pyRound
  have h : (1 : ℝ) * 10 ^ n = ((10 ^ n : ℤ) : ℝ) := by push_cast; ring
  rw [h, round_intCast]
  have hc : ((10 : ℝ)) ^ n ≠ 0 := by positivity
  push_cast
  field_simp

theorem pyRound_mem_unit (n : ℕ) {x : ℝ} (h0 : 0 ≤ x) (h1 : x ≤ 1) :
    0 ≤ pyRound n x ∧ pyRound n x ≤ 1 := by
  constructor
  · have := pyRound_mono n h0
    rwa [pyRound_zero] at this
  · have := pyRound_mono n h1
    rwa [pyRound_one] at this

theorem abs_pyRound2_sub (x : ℝ) : |pyRound 2 x - x| ≤ 1 / 200 := by
  have h := abs_sub_round (x * 10 ^ 2)
  unfold pyRound
  have he : ((round (x * 10 ^ 2) : ℤ) : ℝ) / 10 ^ 2 - x =
      (((round (x * 10 ^ 2) : ℤ) : ℝ) - x * 10 ^ 2) / 10 ^ 2 := by ring
  rw [he, abs_div, abs_sub_comm]
  have h2 : |(10 : ℝ) ^ 2| = 100 := by norm_num
  rw [h2]
  linarith

theorem pyRound2_avg_close (x y : ℝ) :
    |pyRound 2 ((x + y) / 2) - (pyRound 2 x + pyRound 2 y) / 2| ≤ 1 / 100 := by
  have hm := abs_pyRound2_sub ((x + y) / 2)
  have hx := abs_pyRound2_sub x
  have hy := abs_pyRound2_sub y
  rw [abs_le] at hm hx hy ⊢
  constructor <;> [linarith; linarith]

theorem parseDecimalFrac_nonneg {l : List Char} {q : ℚ}
    (h : parseDecimalFrac l = some q) : 0 ≤ q := by
  unfold parseDecimalFrac at h
  repeat' split at h
  all_goals
    first
      | exact Option.noConfusion h
      | (obtain rfl := Option.some.inj h; positivity)
      | (obtain ⟨n, -, hn⟩ := Option.map_eq_some'.mp h
         rw [← hn]
         exact Nat.cast_nonneg n)

theorem pyFloatUnsigned_nonneg {l : List Char} {q : ℚ}
    (h : pyFloatUnsigned l = some q) : 0 ≤ q := by
  unfold pyFloatUnsigned at h
  split at h
  · exact Option.noConfusion h
  · rename_i m hm
    split at h
    · obtain rfl := Option.some.inj h
      exact parseDecimalFrac_nonneg hm
    · split at h
      · exact Option.noConfusion h
      · rename_i e he
        obtain rfl := Option.some.inj h
        have h0 : (0 : ℚ) ≤ m := parseDecimalFrac_nonneg hm
        exact mul_nonneg h0 (zpow_nonneg (by norm_num) e)

theorem dropWhile_append_singleton {p : Char → Bool} {c : Char}
    (hc : p c = false) (a : List Char) :
    ∃ t, ((a ++ [c]).dropWhile p).reverse = c :: t := by
  induction a with
  | nil =>
    refine ⟨[], ?_⟩
    simp [List.dropWhile_cons, hc]
  | cons x xs ih =>
    rw [List.cons_append, List.dropWhile_cons]
    by_cases hx : p x = true
    · simpa [hx] using ih
    · refine ⟨xs.reverse ++ [x], ?_⟩
      simp [hx, List.reverse_append]

theorem pyStrip_cons_not_ws (c : Char) (hc : c.isWhitespace = false)
    (l : List Char) : ∃ t, pyStrip (c :: l) = c :: t := by
  unfold pyStrip stripLeft
  rw [List.dropWhile_cons, hc]
  simp only [Bool.false_eq_true, if_false, List.reverse_cons]
  exact dropWhile_append_singleton hc l.reverse

theorem pyFloat_zero_head_nonneg {l : List Char} {q : ℚ}
    (h : pyFloat ('0' :: l) = some q) : 0 ≤ q := by
  obtain ⟨t, ht⟩ := pyStrip_cons_not_ws '0' (by decide) l
  unfold pyFloat at h
  rw [ht] at h
  have h' : (if ('0' : Char) = '+' then pyFloatUnsigned t
      else if ('0' : Char) = '-' then (pyFloatUnsigned t).map (fun q => -q)
      else pyFloatUnsigned ('0' :: t)) = some q := h
  rw [if_neg (by decide), if_neg (by decide)] at h'
  exact pyFloatUnsigned_nonneg h'

/-! ## Claim theorems -/

section ConcreteEvaluation

/- Batteries marks the arithmetic of `ℚ` `@[irreducible]`, which blocks
`decide`/`rfl` evaluation of the parser models on concrete inputs; the
kernel unfolds them regardless.  Locally restore reducibility for the
closed evaluation theorems. -/
attribute [local semireducible] Rat.add Rat.mul Rat.inv Rat.sub Rat.ofScientific

/-- Claim C1: the spec (and the decoder's own docstring) require
`decode(sMMMMM±E) = sign * 0.MMMMM * 10^(signed E)`, e.g.
`decode("12345-3") = 0.12345e-3` and `decode("-12345+2") = -0.12345e2`.
The code instead inserts the decimal point after the FIRST mantissa digit:
it returns `1.2345e-3 = 12345/10^7` (not `0.12345e-3 = 12345/10^8`) and
`-123.45 = -(12345/10^2)` (not `-12.345 = -(12345/10^3)`); only the
all-zero encoding agrees.  This theorem evaluates the code at those
inputs and separates the produced values from the specified ones. -/
theorem sci_decode_divergence :
    parse_sci_field "00000+0".toList = some 0 ∧
    parse_sci_field "12345-3".toList = some (12345 / 10 ^ 7) ∧
    (12345 / 10 ^ 7 : ℚ) ≠ 12345 / 10 ^ 8 ∧
    parse_sci_field "-12345+2".toList = some (-(12345 / 10 ^ 2)) ∧
    (-(12345 / 10 ^ 2) : ℚ) ≠ -(12345 / 10 ^ 3) := by
  refine ⟨rfl, by decide, by norm_num, by decide, by norm_num⟩

/-- Claim C2: the spec says `parse_tle_lines` never raises past its
boundary and returns the invalid-TLE result `None` on ANY malformed
input.  But `_validate_tle_format` runs outside the `try:` block and
`_verify_checksum` executes `int(line[-1])`, so a 69-character line with
a valid `'1'` prefix whose final character is not a digit (here `'A'`)
makes a `ValueError` escape the function.  This theorem evaluates the
code at that input: the result is the escaped exception, not `None`. -/
theorem tle_parse_exception_escapes :
    parse_tle_lines 0 "X".toList ('1' :: (List.replicate 67 ' ' ++ ['A']))
      ('2' :: List.replicate 68 ' ') = Except.error () := by
  rfl

end ConcreteEvaluation

/-- Claim C4: for each generated sample the synthetic training generator
stores, as the decay-rate target, exactly
`max 0.001 ((density * area * 2.2 * 86400) / (2 * (mass / (2.2 * area)))
* (altitude/earth_radius)^2 * (1 + eccentricity)
* (1 + 0.1 * sin inclination_rad))`, with the three-band piecewise
exponential density scaled by `(solar_flux/150)^0.5`: the generator model
built from the source equals, sample by sample, the closed formula built
from the spec's words. -/
theorem training_targets_match_spec (earth_radius : ℝ)
    (draws : List TrainingDraw) :
    (generate_training_data earth_radius draws).2 =
      draws.map (spec_decay_target earth_radius) := by
  unfold generate_training_data
  refine List.map_congr_left fun s _ => ?_
  unfold training_decay_rate spec_decay_target
  norm_num

/-- Claim C5: `predict_decay_rate` returns
`max(0.001, 0.4*rf + 0.4*gb + 0.2*nn)` where `rf`, `gb`, `nn` are the
three regressors' predictions on the scaled feature vector, and the
result is always at least 0.001 km/day. -/
theorem predict_decay_blend_and_floor
    (rf_model gb_model nn_model : DecayFeatures → ℝ)
    (scaler : DecayFeatures → DecayFeatures) (f : DecayFeatures) :
    predict_decay_rate rf_model gb_model nn_model scaler f =
      max 0.001 (0.4 * rf_model (scaler f) + 0.4 * gb_model (scaler f) +
        0.2 * nn_model (scaler f)) ∧
    0.001 ≤ predict_decay_rate rf_model gb_model nn_model scaler f := by
  constructor
  · unfold predict_decay_rate
    ring_nf
  · unfold predict_decay_rate
    exact le_max_left _ _

/-- Claim C6: training is idempotent once trained.  For a state whose
training has completed (`is_trained = true`), calling `train` again with
any `n_samples` argument performs no fitting, leaves the three models,
the scaler and the metrics unchanged (the returned state is the input
state itself) and returns exactly the cached metrics. -/
theorem train_idempotent_once_trained {Model Scaler Metrics : Type}
    (fit : ℕ → (Model × Model × Model) × Scaler × Metrics)
    (default_samples : ℕ) (s : PredictorState Model Scaler Metrics)
    (n_samples : Option ℕ) (h : s.is_trained = true) :
    train fit default_samples s n_samples = (s, s.model_metrics) := by
  unfold train
  rw [h]
  simp

/-- Witness for `train_idempotent_once_trained` at a concrete trained
state. -/
theorem train_idempotent_once_trained_witness :
    ((⟨0, 0, 0, 0, true, 7⟩ : PredictorState ℕ ℕ ℕ).is_trained = true) ∧
    train (fun _ => ((1, 2, 3), 4, 5)) 5000
        (⟨0, 0, 0, 0, true, 7⟩ : PredictorState ℕ ℕ ℕ) none =
      (⟨0, 0, 0, 0, true, 7⟩, 7) :=
  ⟨rfl, train_idempotent_once_trained _ _ _ _ rfl⟩

/-- Claim C10: since `predict_decay_rate` always returns at least 0.001,
the `decay_rate > 0` branch of `predict_reentry_window` is taken on every
successful call: the very-stable-orbit fallback (`days_to_reentry =
36500`, `predicted_date = None`) is unreachable, every assessment carries
a non-null predicted date, and `days_from_now` is
`round(max((altitude - 100) / decay_rate, 0), 1)`. -/
theorem reentry_fallback_unreachable
    (rf_model gb_model nn_model : DecayFeatures → ℝ)
    (scaler : DecayFeatures → DecayFeatures)
    (now altitude inclination eccentricity : ℝ) :
    (predict_reentry_window rf_model gb_model nn_model scaler
        now altitude inclination eccentricity).predicted_date.isSome = true ∧
    (predict_reentry_window rf_model gb_model nn_model scaler
        now altitude inclination eccentricity).days_from_now =
      pyRound 1 (max ((altitude - 100) /
        predict_decay_rate rf_model gb_model nn_model scaler
          { altitude := altitude, inclination := inclination,
            eccentricity := eccentricity, mass := 1000, area := 10,
            solar_flux := 150 }) 0) := by
  have hdr : 0 < predict_decay_rate rf_model gb_model nn_model scaler
      { altitude := altitude, inclination := inclination,
        eccentricity := eccentricity, mass := 1000, area := 10,
        solar_flux := 150 } := by
    unfold predict_decay_rate
    exact lt_of_lt_of_le (by norm_num) (le_max_left _ _)
  unfold predict_reentry_window
  dsimp only
  rw [if_pos hdr, if_pos hdr]
  constructor
  · split <;> rfl
  · rfl

/-- The raw overall reentry risk lies in `[0, 1]` whenever the
eccentricity is nonnegative. -/
theorem calculate_reentry_risk_bounds (d a i e : ℝ) (he : 0 ≤ e) :
    0 ≤ calculate_reentry_risk d a i e ∧ calculate_reentry_risk d a i e ≤ 1 := by
  unfold calculate_reentry_risk
  dsimp only
  constructor
  · refine le_min (by norm_num) ?_
    have h1 : (0 : ℝ) ≤ max 0 (min 1 ((1000 - a) / 800)) := le_max_left _ _
    have h2 : (0 : ℝ) ≤ min 1 (e * 2) := le_min (by norm_num) (by linarith)
    split_ifs <;> nlinarith
  · exact min_le_of_left_le (by norm_num)

/-- The raw spatial risk lies in `[0, 1]` whenever the inclination is
nonnegative. -/
theorem calculate_spatial_risk_bounds (i a d : ℝ) (hi : 0 ≤ i) :
    0 ≤ calculate_spatial_risk i a d ∧ calculate_spatial_risk i a d ≤ 1 := by
  unfold calculate_spatial_risk
  dsimp only
  constructor
  · refine le_min (by norm_num) ?_
    have h1 : (0 : ℝ) ≤ min 1 (i / 90) := le_min (by norm_num) (by positivity)
    have h2 : (0 : ℝ) ≤ max 0 (min 1 ((800 - a) / 600)) := le_max_left _ _
    split_ifs <;> nlinarith
  · exact min_le_of_left_le (by norm_num)

/-- Claim C7: on every successful `predict_reentry_window` call the
reported `overall_reentry_risk` and `peak_spatial_risk` lie in `[0, 1]`.
The hypotheses `0 ≤ inclination` and `0 ≤ eccentricity` hold for every
element set the SGP4 front end extracts from a TLE (inclination and
eccentricity fields are unsigned). -/
theorem reentry_risk_scores_bounded
    (rf_model gb_model nn_model : DecayFeatures → ℝ)
    (scaler : DecayFeatures → DecayFeatures)
    (now altitude inclination eccentricity : ℝ)
    (hincl : 0 ≤ inclination) (hecc : 0 ≤ eccentricity) :
    (0 ≤ (predict_reentry_window rf_model gb_model nn_model scaler
        now altitude inclination eccentricity).overall_reentry_risk ∧
      (predict_reentry_window rf_model gb_model nn_model scaler
        now altitude inclination eccentricity).overall_reentry_risk ≤ 1) ∧
    (0 ≤ (predict_reentry_window rf_model gb_model nn_model scaler
        now altitude inclination eccentricity).peak_spatial_risk ∧
      (predict_reentry_window rf_model gb_model nn_model scaler
        now altitude inclination eccentricity).peak_spatial_risk ≤ 1) := by
  unfold predict_reentry_window
  dsimp only
  constructor
  · obtain ⟨hl, hu⟩ := calculate_reentry_risk_bounds _ altitude inclination _ hecc
    exact pyRound_mem_unit 3 hl hu
  · obtain ⟨hl, hu⟩ := calculate_spatial_risk_bounds inclination altitude _ hincl
    exact pyRound_mem_unit 3 hl hu

/-- Witness for `reentry_risk_scores_bounded` at an ISS-like input. -/
theorem reentry_risk_scores_bounded_witness :
    ((0 : ℝ) ≤ 51.6 ∧ (0 : ℝ) ≤ 0.0001) ∧
    ((0 ≤ (predict_reentry_window (fun _ => 0) (fun _ => 0) (fun _ => 0)
        id 0 408 51.6 0.0001).overall_reentry_risk ∧
      (predict_reentry_window (fun _ => 0) (fun _ => 0) (fun _ => 0)
        id 0 408 51.6 0.0001).overall_reentry_risk ≤ 1) ∧
    (0 ≤ (predict_reentry_window (fun _ => 0) (fun _ => 0) (fun _ => 0)
        id 0 408 51.6 0.0001).peak_spatial_risk ∧
      (predict_reentry_window (fun _ => 0) (fun _ => 0) (fun _ => 0)
        id 0 408 51.6 0.0001).peak_spatial_risk ≤ 1)) :=
  ⟨⟨by norm_num, by norm_num⟩,
    reentry_risk_scores_bounded (fun _ => 0) (fun _ => 0) (fun _ => 0)
      id 0 408 51.6 0.0001 (by norm_num) (by norm_num)⟩

/-- An ASCII digit character has code point between 48 and 57. -/
theorem char_digit_toNat_bounds {c : Char} (h : c.isDigit = true) :
    48 ≤ c.toNat ∧ c.toNat ≤ 57 := by
  simp only [Char.isDigit, Bool.and_eq_true, decide_eq_true_eq, ge_iff_le] at h
  obtain ⟨h1, h2⟩ := h
  rw [UInt32.le_def, BitVec.le_def] at h1 h2
  exact ⟨h1, h2⟩

theorem char_toNat_inj {a b : Char} (h : a.toNat = b.toNat) : a = b :=
  Char.ext (UInt32.toNat.inj h)

theorem dropLast_append_cons_ne {a b : List Char} (d : Char) (hb : b ≠ []) :
    (a ++ d :: b).dropLast = a ++ d :: b.dropLast := by
  rw [List.dropLast_append_cons]
  cases b with
  | nil => exact absurd rfl hb
  | cons x xs => rw [List.dropLast_cons₂]

theorem getLast?_cons_of_ne_nil {x : Char} {b : List Char} (hb : b ≠ []) :
    (x :: b).getLast? = b.getLast? := by
  cases b with
  | nil => exact absurd rfl hb
  | cons y ys => exact List.getLast?_cons_cons

theorem getLast?_append_cons_ne {a b : List Char} {c x : Char} (hb : b ≠ [])
    (h : b.getLast? = some c) : (a ++ x :: b).getLast? = some c := by
  rw [List.getLast?_append, getLast?_cons_of_ne_nil hb, h, Option.or_some]

/-- Claim C3: for every 69-character line whose final character is a
digit, `_verify_checksum` returns true iff that digit equals the mod-10
sum of the per-character contributions over the first 68 characters; and
replacing any single digit among the first 68 by a different digit,
without updating the trailing checksum digit, flips verification from
true to false. -/
theorem checksum_verify_iff_and_flips (l : List Char) (c : Char)
    (h69 : l.length = 69) (hlast : l.getLast? = some c)
    (hc : c.isDigit = true) :
    (verify_checksum l = .ok true ↔
      digitVal c = ((l.take 68).map tle_char_value).sum % 10) ∧
    (∀ a b : List Char, ∀ d d' : Char, l = a ++ d :: b → a.length ≤ 67 →
      d.isDigit = true → d'.isDigit = true → d ≠ d' →
      verify_checksum l = .ok true →
      verify_checksum (a ++ d' :: b) = .ok false) := by
  have htake : l.dropLast = l.take 68 := by
    rw [List.dropLast_eq_take, h69]
  constructor
  · simp only [verify_checksum, hlast, hc, if_true, Except.ok.injEq,
      decide_eq_true_eq]
    unfold calculate_checksum
    rw [htake]
    exact eq_comm
  · intro a b d d' hsplit ha hd hd' hne hver
    have hb : b ≠ [] := by
      intro hbe
      rw [hsplit, hbe] at h69
      simp at h69
      omega
    have hbl : b.getLast? = some c := by
      rw [hsplit] at hlast
      rw [List.getLast?_append, getLast?_cons_of_ne_nil hb] at hlast
      cases hbg : b.getLast? with
      | none => exact absurd (List.getLast?_eq_none_iff.mp hbg) hb
      | some z =>
        rw [hbg, Option.or_some] at hlast
        exact hlast
    have hsum : ∀ x : Char, calculate_checksum (a ++ x :: b) =
        ((a.map tle_char_value).sum + tle_char_value x +
          ((b.dropLast).map tle_char_value).sum) % 10 := by
      intro x
      unfold calculate_checksum
      rw [dropLast_append_cons_ne x hb]
      simp [List.map_append, List.sum_append]
      omega
    have hverx : ∀ x : Char, verify_checksum (a ++ x :: b) =
        .ok (decide (calculate_checksum (a ++ x :: b) = digitVal c)) := by
      intro x
      simp [verify_checksum, getLast?_append_cons_ne hb hbl, hc]
    rw [hsplit] at hver
    rw [hverx d, Except.ok.injEq] at hver
    have hvd := decide_eq_true_eq.mp hver
    rw [hverx d']
    have hdb := char_digit_toNat_bounds hd
    have hdb' := char_digit_toNat_bounds hd'
    have hvne : digitVal d ≠ digitVal d' := by
      intro hdd
      exact hne (char_toNat_inj (by unfold digitVal at hdd; omega))
    have htv : tle_char_value d = digitVal d := by
      unfold tle_char_value
      rw [if_pos hd]
    have htv' : tle_char_value d' = digitVal d' := by
      unfold tle_char_value
      rw [if_pos hd']
    rw [hsum d, htv] at hvd
    rw [hsum d', htv']
    have : ¬ (((a.map tle_char_value).sum + digitVal d' +
        ((b.dropLast).map tle_char_value).sum) % 10 = digitVal c) := by
      unfold digitVal at hvd hvne ⊢
      omega
    rw [List.map_dropLast] at this
    simp [this]

/-- Witness for `checksum_verify_iff_and_flips` at the concrete line
`tle_line1` (checksum digit 8): the verification identity holds, and
changing the leading digit `1` to `3` flips verification to false. -/
theorem checksum_verify_iff_and_flips_witness :
    (tle_line1.toList.length = 69 ∧ tle_line1.toList.getLast? = some '8' ∧
      ('8' : Char).isDigit = true) ∧
    (verify_checksum tle_line1.toList = .ok true ↔
      digitVal '8' = ((tle_line1.toList.take 68).map tle_char_value).sum % 10) ∧
    verify_checksum ('3' :: tle_line1.toList.tail) = .ok false :=
  have h69 : tle_line1.toList.length = 69 := by decide
  have hlast : tle_line1.toList.getLast? = some '8' := by decide
  ⟨⟨h69, hlast, rfl⟩,
    (checksum_verify_iff_and_flips tle_line1.toList '8' h69 hlast rfl).1,
    (checksum_verify_iff_and_flips tle_line1.toList '8' h69 hlast rfl).2
      [] tle_line1.toList.tail '1' '3' rfl (by decide) rfl rfl (by decide)
      rfl⟩

/-- Successful `parse_tle_lines` means the `try:` body produced a record. -/
theorem parse_tle_lines_ok {now : ℚ} {nm l1 l2 : List Char} {rec : ParsedTLE}
    (h : parse_tle_lines now nm l1 l2 = .ok (some rec)) :
    parse_tle_body now nm l1 l2 = some rec := by
  unfold parse_tle_lines at h
  split at h
  · exact Except.noConfusion h
  · exact Option.noConfusion (Except.ok.inj h)
  · exact Except.ok.inj h

/-- What success of the parse body guarantees about the record: the
eccentricity came from `float("0." + field)` (hence is nonnegative) and
the mean motion survived the `ZeroDivisionError` guard (hence is
nonzero). -/
theorem parse_tle_body_fields {now : ℚ} {nm l1 l2 : List Char}
    {rec : ParsedTLE} (h : parse_tle_body now nm l1 l2 = some rec) :
    0 ≤ rec.eccentricity ∧ rec.mean_motion ≠ 0 := by
  unfold parse_tle_body at h
  rw [ite_none_eq_some] at h
  obtain ⟨-, h⟩ := h
  rw [Option.bind_eq_some] at h
  obtain ⟨catalog, -, h⟩ := h
  try dsimp only at h
  rw [Option.bind_eq_some] at h
  obtain ⟨ey, -, h⟩ := h
  try dsimp only at h
  rw [Option.bind_eq_some] at h
  obtain ⟨ed, -, h⟩ := h
  try dsimp only at h
  rw [ite_none_eq_some] at h
  obtain ⟨-, h⟩ := h
  rw [Option.bind_eq_some] at h
  obtain ⟨mmDeriv, -, h⟩ := h
  try dsimp only at h
  rw [Option.bind_eq_some] at h
  obtain ⟨mm2nd, -, h⟩ := h
  try dsimp only at h
  rw [Option.bind_eq_some] at h
  obtain ⟨drag, -, h⟩ := h
  try dsimp only at h
  rw [Option.bind_eq_some] at h
  obtain ⟨elem, -, h⟩ := h
  try dsimp only at h
  rw [ite_none_eq_some] at h
  obtain ⟨-, h⟩ := h
  rw [Option.bind_eq_some] at h
  obtain ⟨incl, -, h⟩ := h
  try dsimp only at h
  rw [Option.bind_eq_some] at h
  obtain ⟨raan, -, h⟩ := h
  try dsimp only at h
  rw [Option.bind_eq_some] at h
  obtain ⟨ecc, hecc, h⟩ := h
  try dsimp only at h
  rw [Option.bind_eq_some] at h
  obtain ⟨argp, -, h⟩ := h
  try dsimp only at h
  rw [Option.bind_eq_some] at h
  obtain ⟨ma, -, h⟩ := h
  try dsimp only at h
  rw [Option.bind_eq_some] at h
  obtain ⟨mm, -, h⟩ := h
  try dsimp only at h
  rw [Option.bind_eq_some] at h
  obtain ⟨rev, -, h⟩ := h
  try dsimp only at h
  rw [ite_none_eq_some] at h
  obtain ⟨hmm0, h⟩ := h
  obtain rfl := Option.some.inj h
  exact ⟨pyFloat_zero_head_nonneg hecc, hmm0⟩

/-- The semi-major axis computed from a nonzero mean motion is strictly
positive (`mu / n^2 > 0` and a positive base to a real power stays
positive). -/
theorem tle_semi_major_axis_pos {mm : ℝ} (h : mm ≠ 0) :
    0 < tle_semi_major_axis mm := by
  unfold tle_semi_major_axis
  dsimp only
  apply Real.rpow_pos_of_pos
  apply div_pos (by norm_num)
  have hn : mm * 2 * Real.pi / 86400 ≠ 0 := by
    apply div_ne_zero
    · exact mul_ne_zero (mul_ne_zero h two_ne_zero) Real.pi_ne_zero
    · norm_num
  exact (sq_nonneg _).lt_of_ne (Ne.symm (pow_ne_zero 2 hn))

/-- Claim C8 (amended): for every successfully parsed TLE record the
eccentricity is nonnegative, the computed semi-major axis is strictly
positive, the stored (2-decimal-rounded) perigee altitude is at most the
stored apogee altitude, and the stored average altitude equals the mean
of the stored apogee/perigee altitudes to within the applied rounding
(1/100 km).  The original claim's `eccentricity < 1` is dropped: it fails
on the code (see `parsed_tle_eccentricity_not_below_one`). -/
theorem parsed_tle_derived_invariants (now : ℚ) (nm l1 l2 : List Char)
    (rec : ParsedTLE)
    (h : parse_tle_lines now nm l1 l2 = .ok (some rec)) :
    0 ≤ rec.eccentricity ∧
    0 < tle_semi_major_axis (rec.mean_motion : ℝ) ∧
    (calculate_orbital_parameters (rec.mean_motion : ℝ) (rec.eccentricity : ℝ)
        (rec.inclination : ℝ)).perigee_altitude_km ≤
      (calculate_orbital_parameters (rec.mean_motion : ℝ) (rec.eccentricity : ℝ)
        (rec.inclination : ℝ)).apogee_altitude_km ∧
    |(calculate_orbital_parameters (rec.mean_motion : ℝ) (rec.eccentricity : ℝ)
        (rec.inclination : ℝ)).average_altitude_km -
      ((calculate_orbital_parameters (rec.mean_motion : ℝ) (rec.eccentricity : ℝ)
          (rec.inclination : ℝ)).apogee_altitude_km +
        (calculate_orbital_parameters (rec.mean_motion : ℝ) (rec.eccentricity : ℝ)
          (rec.inclination : ℝ)).perigee_altitude_km) / 2| ≤ 1 / 100 := by
  obtain ⟨hecc, hmm⟩ := parse_tle_body_fields (parse_tle_lines_ok h)
  have hmmR : (rec.mean_motion : ℝ) ≠ 0 := Rat.cast_ne_zero.mpr hmm
  have heccR : (0 : ℝ) ≤ (rec.eccentricity : ℝ) := by exact_mod_cast hecc
  have ha := tle_semi_major_axis_pos hmmR
  refine ⟨hecc, ha, ?_, ?_⟩
  · unfold calculate_orbital_parameters
    dsimp only
    apply pyRound_mono
    nlinarith [mul_nonneg ha.le heccR]
  · unfold calculate_orbital_parameters
    dsimp only
    exact pyRound2_avg_close _ _

/-- Counting lemma for the batch result-collection loop: the per-future
success/failure split preserves exactly the success and failure counts of
the submitted inputs, whatever start index. -/
theorem batch_loop_lengths {β : Type} (handler : List Char → Except String β)
    (xs : List (List Char)) : ∀ i : ℕ,
    (batch_loop handler i xs).1.length =
        xs.countP (fun x => isOkE (handler x)) ∧
    (batch_loop handler i xs).2.length =
        xs.countP (fun x => ! isOkE (handler x)) := by
  induction xs with
  | nil => intro i; simp [batch_loop]
  | cons x r ih =>
    intro i
    unfold batch_loop
    obtain ⟨ih1, ih2⟩ := ih (i + 1)
    cases hx : handler x with
    | ok v => simp [List.countP_cons, isOkE, hx, ih1, ih2]
    | error e => simp [List.countP_cons, isOkE, hx, ih1, ih2]

theorem countP_not_add {α : Type} (p : α → Bool) (xs : List α) :
    xs.countP (fun a => ! p a) + xs.countP p = xs.length := by
  induction xs with
  | nil => simp
  | cons x r ih =>
    by_cases hx : p x <;> simp [List.countP_cons, hx] <;> omega

/-- Claim C9 (amended): when EVERY input string has at least three
newline-separated lines (so the batch stays on the TLE-string path), a
batch with exactly one failing input among N succeeding ones returns
exactly N entries in `individual_results` and exactly 1 entry in
`processing_errors`.  The original unconditional claim fails: a malformed
TLE string with fewer than three lines flips the whole batch onto the
fetch-by-identifier path (see `batch_dispatch_switches_path`). -/
theorem batch_isolates_single_failure {β : Type}
    (single fetch_and_process : List Char → Except String β)
    (xs : List (List Char)) (N : ℕ)
    (h3 : xs.all has_three_lines = true)
    (hok : xs.countP (fun x => isOkE (single x)) = N)
    (hlen : xs.length = N + 1) :
    (process_multiple_satellites single fetch_and_process xs).1.length = N ∧
    (process_multiple_satellites single fetch_and_process xs).2.length = 1 := by
  unfold process_multiple_satellites
  dsimp only
  rw [if_pos h3]
  obtain ⟨h1, h2⟩ := batch_loop_lengths single xs 0
  refine ⟨h1.trans hok, h2.trans ?_⟩
  have hsum := countP_not_add (fun x => isOkE (single x)) xs
  omega

section ConcreteParseEvaluation

attribute [local semireducible] Rat.add Rat.mul Rat.inv Rat.sub Rat.ofScientific

/-- Claim C8 counterexample: the pair `tle_line1`/`tle_line2_expfield`
parses successfully (valid lengths, prefixes, checksums, layout, and
every numeric conversion succeeds, since `float("0.99e5")` is a valid
Python float literal), yet the parsed eccentricity is 99000, which is not
in `[0, 1)`. -/
theorem parsed_tle_eccentricity_not_below_one :
    ∃ rec : ParsedTLE,
      parse_tle_lines tle_now "ECC".toList tle_line1.toList
          tle_line2_expfield.toList = .ok (some rec) ∧
      rec.eccentricity = 99000 ∧ ¬ (99000 : ℚ) < 1 :=
  ⟨_, rfl, rfl, by norm_num⟩

/-- Witness for `parsed_tle_derived_invariants` at the concrete valid
pair `tle_line1`/`tle_line2`. -/
theorem parsed_tle_derived_invariants_witness :
    ∃ rec : ParsedTLE,
      parse_tle_lines tle_now "ISS".toList tle_line1.toList
          tle_line2.toList = .ok (some rec) ∧
      (0 ≤ rec.eccentricity ∧
       0 < tle_semi_major_axis (rec.mean_motion : ℝ) ∧
       (calculate_orbital_parameters (rec.mean_motion : ℝ)
           (rec.eccentricity : ℝ) (rec.inclination : ℝ)).perigee_altitude_km ≤
         (calculate_orbital_parameters (rec.mean_motion : ℝ)
           (rec.eccentricity : ℝ) (rec.inclination : ℝ)).apogee_altitude_km ∧
       |(calculate_orbital_parameters (rec.mean_motion : ℝ)
           (rec.eccentricity : ℝ) (rec.inclination : ℝ)).average_altitude_km -
         ((calculate_orbital_parameters (rec.mean_motion : ℝ)
             (rec.eccentricity : ℝ) (rec.inclination : ℝ)).apogee_altitude_km +
           (calculate_orbital_parameters (rec.mean_motion : ℝ)
             (rec.eccentricity : ℝ)
             (rec.inclination : ℝ)).perigee_altitude_km) / 2| ≤ 1 / 100) :=
  ⟨_, rfl, parsed_tle_derived_invariants tle_now "ISS".toList tle_line1.toList
    tle_line2.toList _ rfl⟩

/-- Claim C9 counterexample: among the two inputs, `tle_good_string` is a
valid TLE string (its analysis succeeds) and `"JUNK"` is a malformed one,
so the claim promises 1 success and 1 error; but `"JUNK"` has fewer than
three lines, the `all(...)` dispatch sends the WHOLE batch to
`_fetch_and_process`, and with the fetch outcome data-unavailable the
batch returns 0 successes and 2 errors. -/
theorem batch_dispatch_switches_path :
    isOkE (process_single_satellite tle_now tle_good_string.toList) = true ∧
    isOkE (process_single_satellite tle_now "JUNK".toList) = false ∧
    (process_multiple_satellites (process_single_satellite tle_now)
        (failed_fetch : List Char → Except String ParsedTLE)
        [tle_good_string.toList, "JUNK".toList]).1.length = 0 ∧
    (process_multiple_satellites (process_single_satellite tle_now)
        (failed_fetch : List Char → Except String ParsedTLE)
        [tle_good_string.toList, "JUNK".toList]).2.length = 2 :=
  ⟨rfl, rfl, rfl, rfl⟩

/-- Witness for `batch_isolates_single_failure`: one valid and one
malformed-but-three-line TLE string give exactly 1 success and 1 error. -/
theorem batch_isolates_single_failure_witness :
    [tle_good_string.toList, tle_bad_string.toList].all has_three_lines
        = true ∧
    [tle_good_string.toList, tle_bad_string.toList].countP
        (fun x => isOkE (process_single_satellite tle_now x)) = 1 ∧
    [tle_good_string.toList, tle_bad_string.toList].length = 1 + 1 ∧
    ((process_multiple_satellites (process_single_satellite tle_now)
        (failed_fetch : List Char → Except String ParsedTLE)
        [tle_good_string.toList, tle_bad_string.toList]).1.length = 1 ∧
      (process_multiple_satellites (process_single_satellite tle_now)
        (failed_fetch : List Char → Except String ParsedTLE)
        [tle_good_string.toList, tle_bad_string.toList]).2.length = 1) :=
  ⟨rfl, rfl, rfl,
    batch_isolates_single_failure (process_single_satellite tle_now)
      (failed_fetch : List Char → Except String ParsedTLE)
      [tle_good_string.toList, tle_bad_string.toList] 1 rfl rfl rfl⟩

end ConcreteParseEvaluation
